import Mathlib

/-!
Shallow embedding of the `atlassian-addon-helper` package core
(`src/index.ts`, `src/registration.ts`) in Lean 4.

The embedding mirrors the TypeScript source:
* JSON-object values stored per tenant are modelled as association lists of
  string fields (`ClientData`); the Keyv store is an association list from
  client key to `ClientData` (`Store`).
* Express responses produced through `AtlassianAddon.sendError(code, msg, res)`
  are modelled by the record `HttpResponse` with the `{code, msg}` body.
* Promise-returning handlers that may reject are modelled with `Except`:
  `Except.error e` is a rejected promise (a thrown exception), `Except.ok b`
  a promise resolved with boolean `b`.
* Route handlers are modelled as pure functions from their inputs (store
  contents, parsed request body) to the new store contents, the response
  written, and — for the webhook route — the list of handler invocations
  performed, so that "invoked exactly once with the payload" is expressible.
-/

/-- Response body produced by `AtlassianAddon.sendError(code, msg, res)`
(source line 456-458): `res.status(code).json({ code, msg })`. -/
structure HttpResponse where
  code : Nat
  msg : String
deriving DecidableEq, Repr

/-- A JSON object as stored per tenant: field name to string value.
The install payload is stored verbatim (`this._db.set(clientData.clientKey,
clientData)`), so its schema beyond `clientKey` is irrelevant here. -/
def ClientData : Type := List (String × String)

instance : DecidableEq ClientData := by
  unfold ClientData
  infer_instance

/-- Field access `data[key]` on a JSON object, `none` when the field is
absent (JS `undefined`). -/
def ClientData.getField (d : ClientData) (k : String) : Option String :=
  (d.find? (fun p => p.1 == k)).map (fun p => p.2)

/-- The Keyv store `this._db`: client key to client data. -/
def Store : Type := List (String × ClientData)

instance : DecidableEq Store := by
  unfold Store
  infer_instance

/-- Keyv `get(key)`: the stored record, or `none` (JS `undefined`) when no
record exists for the key.  A missing key is not an error. -/
def Store.dbGet (db : Store) (k : String) : Option ClientData :=
  (db.find? (fun p => p.1 == k)).map (fun p => p.2)

/-- Keyv `set(key, value)`: upsert, replacing any prior record for the key. -/
def Store.dbSet (db : Store) (k : String) (v : ClientData) : Store :=
  (k, v) :: db.filter (fun p => !(p.1 == k))

/-- Keyv `delete(key)`: removes the record for the key when present;
deleting an absent key changes nothing. -/
def Store.dbDelete (db : Store) (k : String) : Store :=
  db.filter (fun p => !(p.1 == k))

/-- `AtlassianAddon.getClientData(clientKey, key)` (source lines 441-448):
`const data = await this._db.get(clientKey); if (data && key in data)
return data[key]; else return undefined;`. -/
def getClientData (db : Store) (clientKey : String) (key : String) : Option String :=
  match db.dbGet clientKey with
  | some data =>
    match data.getField key with
    | some v => some v
    | none => none
  | none => none

/-- `AtlassianAddon.getSharedSecret(clientKey)` (source lines 282-284):
`return this.getClientData(clientKey, "sharedSecret");`. -/
def getSharedSecret (db : Store) (clientKey : String) : Option String :=
  getClientData db clientKey "sharedSecret"

/-- JS truthiness of a string-valued field: `undefined` and the empty
string are falsy; a non-empty string is truthy. -/
def truthyString : Option String → Option String
  | some s => if s == "" then none else some s
  | none => none

/-- The truthy `clientKey` of an optional request body: `req.body` may be
absent (`none`), and `!clientData || !clientData.clientKey` then rejects.
Returns the client key exactly when the body exists and carries a truthy
`clientKey` field. -/
def bodyClientKey (body? : Option ClientData) : Option String :=
  match body? with
  | some d => truthyString (d.getField "clientKey")
  | none => none

/-- The `/installed` route handler (source lines 317-325): a malformed body
(no body, or falsy `clientKey`) answers 500 without touching the store;
otherwise the client data is stored under its client key and 200 is
answered. -/
def installedRoute (db : Store) (body? : Option ClientData) : Store × HttpResponse :=
  match bodyClientKey body? with
  | none => (db, ⟨500, "Received malformed installation payload from Jira"⟩)
  | some ck =>
    match body? with
    | some clientData =>
      (db.dbSet ck clientData, ⟨200, "Installation completed successfully"⟩)
    | none => (db, ⟨500, "Received malformed installation payload from Jira"⟩)

/-- The `/uninstalled` route handler (source lines 328-335): the same
malformed-body rejection, then `this._db.delete(clientData.clientKey)`
and a 200 answer regardless of whether a record existed. -/
def uninstalledRoute (db : Store) (body? : Option ClientData) : Store × HttpResponse :=
  match bodyClientKey body? with
  | none => (db, ⟨500, "Received malformed installation payload from Jira"⟩)
  | some ck => (db.dbDelete ck, ⟨200, "Uninstall completed successfully"⟩)

/-- The `lifecycle` field of the descriptor, set by `addLifecycleEndpoints`
(source lines 311-314). -/
structure DescriptorLifecycle where
  installed : String
  uninstalled : String
deriving DecidableEq, Repr

/-- The part of the `AtlassianAddon` object state that `addLifecycleEndpoints`
reads and mutates: whether `this._metaRouter` has been created (JS truthiness
of the field, initially `undefined`), the routes registered on the meta
router, the paths mounted on `this.subApp`, the descriptor `lifecycle`
field, and the configured `this._addonPath`. -/
structure AtlassianAddonState where
  addonPath : String
  hasMetaRouter : Bool
  metaRoutes : List (String × String)
  subAppMounts : List String
  descriptorLifecycle : Option DescriptorLifecycle
deriving DecidableEq, Repr

/-- The warning logged when `addLifecycleEndpoints` is called a second time
(source line 296). -/
def reinitWarning : String :=
  "Trying to reinitialize lifecycle endpoints.   Skipping..."

/-- `AtlassianAddon.addLifecycleEndpoints()` (source lines 293-344) as a state
transition, also returning the log messages emitted.  When `this._metaRouter`
is already set it logs a warning and returns without changing anything;
otherwise it creates the meta router, mounts it on the sub app at
`${this._addonPath}/meta`, sets the descriptor lifecycle paths, and registers
the `/installed`, `/uninstalled` and `/descriptor` routes.  The function
always returns normally: no branch raises. -/
def addLifecycleEndpoints (s : AtlassianAddonState) :
    AtlassianAddonState × List String :=
  if s.hasMetaRouter then
    (s, [reinitWarning])
  else
    ({ s with
        hasMetaRouter := true
        subAppMounts := s.subAppMounts ++ [s.addonPath ++ "/meta"]
        descriptorLifecycle := some ⟨"/meta/installed", "/meta/uninstalled"⟩
        metaRoutes := s.metaRoutes ++
          [("post", "/installed"), ("post", "/uninstalled"), ("get", "/descriptor")] },
     [])

/-- The `skipQshVerification` getter (source lines 274-276):
`get skipQshVerification(): boolean { return true; }`.  It takes no account
of any configuration: the class constructor has no parameter influencing it
and no setter exists. -/
def skipQshVerification (_s : AtlassianAddonState) : Bool :=
  true

/-- Modelled from the spec: the Token Verifier (the `./auth` middleware, not
present under `src/`) cross-checks the canonicalized request hash (qsh)
against the token claim exactly when such verification is not disabled,
i.e. when `skipQshVerification` is `false` (spec section 4.3, step 4). -/
def qshCheckPerformed (s : AtlassianAddonState) : Bool :=
  !skipQshVerification s

/-- Webhook payload shape documented in the source (lines 14-19): a
`timestamp` and an `event` field plus arbitrary indexed fields, of which only
`webhookEvent` — the field the dispatch code actually reads — is modelled.
`none` models a payload without a `webhookEvent` field (JS `undefined`). -/
structure IWebhookPayload where
  timestamp : String
  event : String
  webhookEvent : Option String := none
deriving DecidableEq, Repr

/-- `IWebhookDefinition` (source lines 50-56). -/
structure IWebhookDefinition where
  key : Option String := none
  description : Option String := none
  event : String
  url : Option String := none
  excludeBody : Option Bool := none
  filter : Option String := none
  propertyKeys : Option (List String) := none
deriving DecidableEq, Repr

/-- `WebhookHandler` (source lines 34-36): an async function from the payload
to a boolean; `Except.error e` models a rejected promise (thrown exception). -/
def WebhookHandler : Type := IWebhookPayload → Except String Bool

/-- `WebhookConfiguration` (source lines 61-64). -/
structure WebhookConfiguration where
  definition : IWebhookDefinition
  handler : WebhookHandler

/-- The predicate of the `findIndex` search at source line 412:
`wh.definition.event === payload.webhookEvent`.  Comparing a string against
JS `undefined` with `===` is `false`, hence the `Option` match. -/
def eventMatches (payload : IWebhookPayload) (wh : WebhookConfiguration) : Bool :=
  match payload.webhookEvent with
  | some e => wh.definition.event == e
  | none => false

/-- The response produced after invoking a handler: resolving yields the 200
success answer of line 415; rejecting is caught at lines 420-423 and yields
the structured 500 answer. -/
def handlerResponse : Except String Bool → HttpResponse
  | Except.ok _ => ⟨200, "Event handled successfully"⟩
  | Except.error _ => ⟨500, "Exception thrown during handling of webhook event"⟩

/-- First-match search and invocation of the webhook route (source lines
409-419): `webhooks.findIndex(...)` locates the first configuration whose
`definition.event` equals `payload.webhookEvent`, and exactly that handler is
invoked once with the payload; with no match the 404 answer of line 418 is
produced and no handler runs.  `n` is the index offset of `l` inside the full
registration list, so the recorded invocation `(index, payload)` carries the
absolute index `findIndex` would return.  The whole computation is total: a
rejecting handler is absorbed into `handlerResponse`, never re-raised. -/
def dispatchFrom (payload : IWebhookPayload) (n : Nat) :
    List WebhookConfiguration → HttpResponse × List (Nat × IWebhookPayload)
  | [] => (⟨404, "Event handler not found"⟩, [])
  | wh :: rest =>
    if eventMatches payload wh then
      (handlerResponse (wh.handler payload), [(n, payload)])
    else
      dispatchFrom payload (n + 1) rest

/-- The request handler installed by `addWebhooks` (source lines 392-424),
after authentication: with no parsed body it logs and returns without writing
a response (lines 402-405, modelled as `none`); otherwise it dispatches the
payload to the first matching registered configuration.  The second component
lists the handler invocations `(registration index, payload)` performed. -/
def webhookRequestHandler (webhooks : List WebhookConfiguration)
    (body? : Option IWebhookPayload) :
    Option HttpResponse × List (Nat × IWebhookPayload) :=
  match body? with
  | none => (none, [])
  | some payload =>
    let r := dispatchFrom payload 0 webhooks
    (some r.1, r.2)

/-- An axios HTTP response as consumed by `getUpmToken`: status and headers. -/
structure AxiosResponse where
  status : Nat
  headers : List (String × String)
deriving DecidableEq, Repr

/-- The callback passed to `.then` inside `getUpmToken`
(`src/registration.ts` lines 12-16): when the response headers own a
`upm-token` property its value is returned, otherwise the callback falls
through and yields `undefined`. -/
def getUpmTokenThen (res : AxiosResponse) : Option String :=
  if res.headers.any (fun p => p.1 == "upm-token") then
    (res.headers.find? (fun p => p.1 == "upm-token")).map (fun p => p.2)
  else
    none

/-- `getUpmToken` (`src/registration.ts` lines 10-18) on a resolved server
response: the promise chain `await axios(request).then(...)` is awaited but
its value is bound to nothing, and the function body then executes its own
final statement `return undefined;`. -/
def getUpmToken (res : AxiosResponse) : Option String :=
  let _thenResult := getUpmTokenThen res
  none

/-! Concrete data used to evaluate the model on small inputs. -/

/-- A registration for the `jira:issue_created` event. -/
def c1Definition : IWebhookDefinition := { event := "jira:issue_created" }

/-- A handler that resolves with `true`. -/
def c1Handler : WebhookHandler := fun _ => Except.ok true

/-- A one-element registration batch for `jira:issue_created`. -/
def c1Webhooks : List WebhookConfiguration := [⟨c1Definition, c1Handler⟩]

/-- A payload whose documented `event` field names the registered event but
which carries no `webhookEvent` field. -/
def c1EventOnlyPayload : IWebhookPayload :=
  { timestamp := "2020-01-01T00:00:00Z", event := "jira:issue_created" }

/-- A payload whose `webhookEvent` field names the registered event. -/
def c1GoodPayload : IWebhookPayload :=
  { timestamp := "2020-01-01T00:00:00Z", event := "jira:issue_created",
    webhookEvent := some "jira:issue_created" }

/-- A store holding one installation record, for a different tenant. -/
def c2Db : Store :=
  [("T-other", [("clientKey", "T-other"), ("sharedSecret", "S9")])]

/-- A store holding one installation record for tenant `T1`. -/
def c3Db : Store :=
  [("T1", [("clientKey", "T1"), ("sharedSecret", "S1")])]

/-- The empty JSON body `{}` of the malformed-install scenario. -/
def c3EmptyBody : ClientData := []

/-- A store holding one installation record for tenant `T1`. -/
def c4Db : Store :=
  [("T1", [("clientKey", "T1"), ("sharedSecret", "S1")])]

/-- An uninstall body for tenant `T2`, which was never installed. -/
def c4Body : ClientData := [("clientKey", "T2")]

/-- A first handler for the duplicate-registration scenario. -/
def c5HandlerA : WebhookHandler := fun _ => Except.ok true

/-- A second handler registered for the same event name. -/
def c5HandlerB : WebhookHandler := fun _ => Except.ok false

/-- A registration batch with two configurations for one event name. -/
def c5Webhooks : List WebhookConfiguration :=
  [⟨{ event := "jira:issue_created" }, c5HandlerA⟩,
   ⟨{ event := "jira:issue_created" }, c5HandlerB⟩]

/-- An inbound payload for the duplicated event name. -/
def c5Payload : IWebhookPayload :=
  { timestamp := "2020-01-01T00:00:00Z", event := "jira:issue_created",
    webhookEvent := some "jira:issue_created" }

/-- A handler for the unmatched-event scenario. -/
def c6Handler : WebhookHandler := fun _ => Except.ok true

/-- A registration batch handling only `jira:issue_created`. -/
def c6Webhooks : List WebhookConfiguration :=
  [⟨{ event := "jira:issue_created" }, c6Handler⟩]

/-- A payload for an event nobody registered for. -/
def c6Payload : IWebhookPayload :=
  { timestamp := "2020-01-01T00:00:00Z", event := "jira:issue_deleted",
    webhookEvent := some "jira:issue_deleted" }

/-- A handler whose promise rejects (throws). -/
def c7Handler : WebhookHandler := fun _ => Except.error "boom"

/-- A registration batch whose only handler throws. -/
def c7Webhooks : List WebhookConfiguration :=
  [⟨{ event := "jira:issue_created" }, c7Handler⟩]

/-- A payload matching the throwing handler's event. -/
def c7Payload : IWebhookPayload :=
  { timestamp := "2020-01-01T00:00:00Z", event := "jira:issue_created",
    webhookEvent := some "jira:issue_created" }

/-- An addon instance in its state after construction, with nothing disabled
by the hosting application — the class exposes no setting that could
influence `skipQshVerification`. -/
def c8Addon : AtlassianAddonState :=
  { addonPath := "/jira/addon"
    hasMetaRouter := true
    metaRoutes := [("post", "/installed"), ("post", "/uninstalled"), ("get", "/descriptor")]
    subAppMounts := ["/jira/addon/meta"]
    descriptorLifecycle := some ⟨"/meta/installed", "/meta/uninstalled"⟩ }

/-! Helper lemmas about the store and the dispatch loop. -/

/-- A key with no record is untouched by `filter`-based deletion. -/
theorem dbDelete_of_absent (db : Store) (k : String) (h : db.dbGet k = none) :
    db.dbDelete k = db := by
  unfold Store.dbGet at h
  unfold Store.dbDelete
  rw [List.filter_eq_self]
  intro p hp
  simp only [Option.map_eq_none', List.find?_eq_none] at h
  simp [h p hp]

/-- Deleting a key twice is the same as deleting it once. -/
theorem dbDelete_idem (db : Store) (k : String) :
    (db.dbDelete k).dbDelete k = db.dbDelete k := by
  unfold Store.dbDelete
  rw [List.filter_filter]
  simp

/-- `eventMatches` holds exactly when the payload carries a `webhookEvent`
field equal to the configuration's event name. -/
theorem eventMatches_iff (payload : IWebhookPayload) (wh : WebhookConfiguration) :
    eventMatches payload wh = true ↔
      payload.webhookEvent = some wh.definition.event := by
  unfold eventMatches
  cases h : payload.webhookEvent with
  | none => simp
  | some e =>
    simp only [beq_iff_eq, Option.some.injEq]
    constructor
    · intro he; exact he.symm
    · intro he; exact he.symm

/-- When no registered configuration matches the payload, the dispatch loop
answers 404 and performs no invocation. -/
theorem dispatchFrom_no_match (payload : IWebhookPayload) :
    ∀ (l : List WebhookConfiguration) (n : Nat),
      (∀ wh ∈ l, eventMatches payload wh = false) →
      dispatchFrom payload n l = (⟨404, "Event handler not found"⟩, []) := by
  intro l
  induction l with
  | nil => intro n _; rfl
  | cons wh rest ih =>
    intro n h
    unfold dispatchFrom
    rw [h wh (List.mem_cons_self wh rest)]
    simp only [Bool.false_eq_true, if_false]
    exact ih (n + 1) (fun w hw => h w (List.mem_cons_of_mem wh hw))

/-- When index `i` is the first match, the dispatch loop invokes exactly the
handler at `i`, once, with the payload, and answers with that handler's
outcome. -/
theorem dispatchFrom_first_match (payload : IWebhookPayload) :
    ∀ (l : List WebhookConfiguration) (n i : Nat) (hi : i < l.length),
      eventMatches payload (l.get ⟨i, hi⟩) = true →
      (∀ m (hm : m < i), eventMatches payload (l.get ⟨m, Nat.lt_trans hm hi⟩) = false) →
      dispatchFrom payload n l =
        (handlerResponse ((l.get ⟨i, hi⟩).handler payload), [(n + i, payload)]) := by
  intro l
  induction l with
  | nil => intro n i hi; exact absurd hi (Nat.not_lt_zero i)
  | cons wh rest ih =>
    intro n i hi hmatch hfirst
    cases i with
    | zero =>
      unfold dispatchFrom
      rw [show (wh :: rest).get ⟨0, hi⟩ = wh from rfl] at hmatch ⊢
      rw [hmatch]
      simp
    | succ j =>
      have h0 : eventMatches payload wh = false := by
        have := hfirst 0 (Nat.succ_pos j)
        exact this
      unfold dispatchFrom
      rw [h0]
      simp only [Bool.false_eq_true, if_false]
      have hj : j < rest.length := Nat.lt_of_succ_lt_succ hi
      have hmatch' : eventMatches payload (rest.get ⟨j, hj⟩) = true := hmatch
      have hfirst' : ∀ m (hm : m < j),
          eventMatches payload (rest.get ⟨m, Nat.lt_trans hm hj⟩) = false := by
        intro m hm
        exact hfirst (m + 1) (Nat.succ_lt_succ hm)
      have := ih (n + 1) j hj hmatch' hfirst'
      rw [this]
      have harith : n + 1 + j = n + (j + 1) := by omega
      rw [harith]
      rfl

/-- Among the indices of `l` satisfying `p`, there is a least one, below any
given satisfying index. -/
theorem exists_first_sat {α : Type} (p : α → Bool) :
    ∀ (l : List α) (i : Nat) (hi : i < l.length), p (l.get ⟨i, hi⟩) = true →
      ∃ k, ∃ hk : k < l.length, k ≤ i ∧ p (l.get ⟨k, hk⟩) = true ∧
        ∀ m (hm : m < k), p (l.get ⟨m, Nat.lt_trans hm hk⟩) = false := by
  intro l
  induction l with
  | nil => intro i hi; exact absurd hi (Nat.not_lt_zero i)
  | cons a rest ih =>
    intro i hi hpi
    by_cases hpa : p a = true
    · exact ⟨0, Nat.succ_pos rest.length, Nat.zero_le i, hpa,
        fun m hm => absurd hm (Nat.not_lt_zero m)⟩
    · have hpa' : p a = false := Bool.eq_false_iff.mpr hpa
      cases i with
      | zero => exact absurd hpi hpa
      | succ j =>
        have hj : j < rest.length := Nat.lt_of_succ_lt_succ hi
        obtain ⟨k, hk, hki, hpk, hfirst⟩ := ih j hj hpi
        refine ⟨k + 1, Nat.succ_lt_succ hk, Nat.succ_le_succ hki, hpk, ?_⟩
        intro m hm
        cases m with
        | zero => exact hpa'
        | succ m' => exact hfirst m' (Nat.lt_of_succ_lt_succ hm)

/-! Claim theorems. -/

/-- C2: for every tenant key with no installation record in the store,
`getSharedSecret` returns `none` (JS `undefined`), never a usable secret;
the lookup is a total function, so it cannot throw for a missing key, and
verification for an uninstalled tenant fails closed. -/
theorem getSharedSecret_none_of_uninstalled (db : Store) (clientKey : String)
    (h : db.dbGet clientKey = none) :
    getSharedSecret db clientKey = none := by
  unfold getSharedSecret getClientData
  rw [h]

/-- C2 witness: tenant `T1` has no record in `c2Db`, and its shared secret
lookup yields `none`. -/
theorem getSharedSecret_none_of_uninstalled_witness :
    c2Db.dbGet "T1" = none ∧ getSharedSecret c2Db "T1" = none :=
  ⟨by decide, getSharedSecret_none_of_uninstalled c2Db "T1" (by decide)⟩

/-- C3: an install notification whose body is missing (or whose body lacks a
truthy `clientKey`) is answered with the structured `{code, msg}` error
response and the store is returned unchanged — nothing is written. -/
theorem installedRoute_malformed_rejects (db : Store) (body? : Option ClientData)
    (h : bodyClientKey body? = none) :
    installedRoute db body? =
      (db, ⟨500, "Received malformed installation payload from Jira"⟩) := by
  unfold installedRoute
  rw [h]

/-- C3 witness: the install scenario with body `{}` is rejected and the
pre-existing store is untouched. -/
theorem installedRoute_malformed_rejects_witness :
    bodyClientKey (some c3EmptyBody) = none ∧
    installedRoute c3Db (some c3EmptyBody) =
      (c3Db, ⟨500, "Received malformed installation payload from Jira"⟩) :=
  ⟨by decide, installedRoute_malformed_rejects c3Db (some c3EmptyBody) (by decide)⟩

/-- C4: an uninstall notification for a tenant key with no stored record is
answered with the 200 success response and the store is unchanged; moreover
running the uninstall route twice leaves the same store as running it
once. -/
theorem uninstalledRoute_unknown_key_noop (db : Store) (body? : Option ClientData)
    (ck : String) (hck : bodyClientKey body? = some ck)
    (habs : db.dbGet ck = none) :
    uninstalledRoute db body? =
      (db, ⟨200, "Uninstall completed successfully"⟩) ∧
    (uninstalledRoute (uninstalledRoute db body?).1 body?).1 =
      (uninstalledRoute db body?).1 := by
  have h1 : uninstalledRoute db body? =
      (db.dbDelete ck, ⟨200, "Uninstall completed successfully"⟩) := by
    unfold uninstalledRoute
    rw [hck]
  constructor
  · rw [h1, dbDelete_of_absent db ck habs]
  · rw [h1]
    show (uninstalledRoute (db.dbDelete ck) body?).1 = db.dbDelete ck
    unfold uninstalledRoute
    rw [hck]
    exact dbDelete_idem db ck

/-- C4 witness: uninstalling the never-installed tenant `T2` answers 200 and
leaves the store as it was, and a second uninstall changes nothing. -/
theorem uninstalledRoute_unknown_key_noop_witness :
    bodyClientKey (some c4Body) = some "T2" ∧
    c4Db.dbGet "T2" = none ∧
    (uninstalledRoute c4Db (some c4Body) =
      (c4Db, ⟨200, "Uninstall completed successfully"⟩) ∧
    (uninstalledRoute (uninstalledRoute c4Db (some c4Body)).1 (some c4Body)).1 =
      (uninstalledRoute c4Db (some c4Body)).1) :=
  ⟨by decide, by decide,
    uninstalledRoute_unknown_key_noop c4Db (some c4Body) "T2" (by decide) (by decide)⟩

/-- C8 counterexample: on a freshly constructed addon, which the hosting
application did not (and cannot) configure in any way that disables request
hash verification, the qsh cross-check is nevertheless skipped:
`skipQshVerification` is `true` and the verification step is not
performed. -/
theorem qsh_check_skipped_on_default_addon :
    skipQshVerification c8Addon = true ∧ qshCheckPerformed c8Addon = false :=
  ⟨rfl, rfl⟩

/-- C8 amended: `skipQshVerification` returns `true` for every addon
instance — the getter is constant and no host-facing setting exists — so the
canonicalized-request-hash cross-check is skipped on every verification. -/
theorem qsh_check_always_skipped (s : AtlassianAddonState) :
    skipQshVerification s = true ∧ qshCheckPerformed s = false :=
  ⟨rfl, rfl⟩

/-- C9: calling `addLifecycleEndpoints` a second time on the same instance
is a no-op that logs the skip warning: the router state, registered routes
and descriptor lifecycle paths are exactly as after the first call, and no
error is raised (the function is total). -/
theorem addLifecycleEndpoints_second_call_noop (s : AtlassianAddonState) :
    addLifecycleEndpoints (addLifecycleEndpoints s).1 =
      ((addLifecycleEndpoints s).1, [reinitWarning]) := by
  cases h : s.hasMetaRouter <;> simp [addLifecycleEndpoints, h]

/-- C10: for every resolved server response — including responses carrying a
`upm-token` header — `getUpmToken` returns `undefined`: the value produced
inside the `.then` callback is discarded and the function's final statement
returns `undefined`. -/
theorem getUpmToken_always_undefined (res : AxiosResponse) :
    getUpmToken res = none :=
  rfl

/-- C1 counterexample: a payload whose documented `event` field equals the
registered configuration's `event`, but which carries no `webhookEvent`
field, is answered 404 and invokes no handler — the dispatch code matches on
`payload.webhookEvent`, not on the payload's `event` field. -/
theorem dispatch_ignores_payload_event_field :
    c1EventOnlyPayload.event = c1Definition.event ∧
    webhookRequestHandler c1Webhooks (some c1EventOnlyPayload) =
      (some ⟨404, "Event handler not found"⟩, []) :=
  ⟨rfl, rfl⟩

/-- C1 amended: for every authenticated webhook request whose payload
`webhookEvent` field equals the `event` of the first matching registered
configuration (index `k`), and whose handler resolves, dispatch invokes
exactly that handler, exactly once, with the payload, and answers 200. -/
theorem dispatch_webhookEvent_match_invokes_once
    (webhooks : List WebhookConfiguration) (payload : IWebhookPayload)
    (k : Nat) (hk : k < webhooks.length) (b : Bool)
    (hev : payload.webhookEvent = some (webhooks.get ⟨k, hk⟩).definition.event)
    (hfirst : ∀ m (hm : m < k),
      payload.webhookEvent ≠ some (webhooks.get ⟨m, Nat.lt_trans hm hk⟩).definition.event)
    (hok : (webhooks.get ⟨k, hk⟩).handler payload = Except.ok b) :
    webhookRequestHandler webhooks (some payload) =
      (some ⟨200, "Event handled successfully"⟩, [(k, payload)]) := by
  have hmatch : eventMatches payload (webhooks.get ⟨k, hk⟩) = true :=
    (eventMatches_iff payload _).mpr hev
  have hfirst' : ∀ m (hm : m < k),
      eventMatches payload (webhooks.get ⟨m, Nat.lt_trans hm hk⟩) = false := by
    intro m hm
    apply Bool.eq_false_iff.mpr
    intro hcon
    exact hfirst m hm ((eventMatches_iff payload _).mp hcon)
  have hd := dispatchFrom_first_match payload webhooks 0 k hk hmatch hfirst'
  unfold webhookRequestHandler
  simp only [hd, hok, handlerResponse, Nat.zero_add]

/-- C1 witness: the `jira:issue_created` scenario with the `webhookEvent`
field set invokes the single registered handler once with the payload and
answers 200. -/
theorem dispatch_webhookEvent_match_invokes_once_witness :
    webhookRequestHandler c1Webhooks (some c1GoodPayload) =
      (some ⟨200, "Event handled successfully"⟩, [(0, c1GoodPayload)]) :=
  dispatch_webhookEvent_match_invokes_once c1Webhooks c1GoodPayload 0
    (by decide) true rfl (fun m hm => absurd hm (Nat.not_lt_zero m)) rfl

/-- C5: in a registration batch holding two configurations for the same
event name, dispatching a payload carrying that event name invokes exactly
one handler — the first matching configuration's — exactly once. -/
theorem dispatch_duplicate_event_first_wins
    (webhooks : List WebhookConfiguration) (payload : IWebhookPayload)
    (e : String) (i j : Nat) (hij : i < j) (hj : j < webhooks.length)
    (hie : (webhooks.get ⟨i, Nat.lt_trans hij hj⟩).definition.event = e)
    (_hje : (webhooks.get ⟨j, hj⟩).definition.event = e)
    (hpe : payload.webhookEvent = some e) :
    ∃ k, ∃ hk : k < webhooks.length, k ≤ i ∧
      (webhooks.get ⟨k, hk⟩).definition.event = e ∧
      (∀ m (hm : m < k), (webhooks.get ⟨m, Nat.lt_trans hm hk⟩).definition.event ≠ e) ∧
      (webhookRequestHandler webhooks (some payload)).2 = [(k, payload)] := by
  obtain ⟨k, hk, hki, hpk, hbefore⟩ :=
    exists_first_sat (fun wh => wh.definition.event == e) webhooks i
      (Nat.lt_trans hij hj) (beq_iff_eq.mpr hie)
  have hke : (webhooks.get ⟨k, hk⟩).definition.event = e := beq_iff_eq.mp hpk
  have hne : ∀ m (hm : m < k),
      (webhooks.get ⟨m, Nat.lt_trans hm hk⟩).definition.event ≠ e := by
    intro m hm hcon
    have := hbefore m hm
    rw [beq_iff_eq.mpr hcon] at this
    exact Bool.true_eq_false.mp this
  have hmatch : eventMatches payload (webhooks.get ⟨k, hk⟩) = true := by
    apply (eventMatches_iff payload _).mpr
    rw [hpe, hke]
  have hfirst' : ∀ m (hm : m < k),
      eventMatches payload (webhooks.get ⟨m, Nat.lt_trans hm hk⟩) = false := by
    intro m hm
    apply Bool.eq_false_iff.mpr
    intro hcon
    have := (eventMatches_iff payload _).mp hcon
    rw [hpe] at this
    exact hne m hm (Option.some.injEq _ _ ▸ this.symm ▸ rfl)
  have hd := dispatchFrom_first_match payload webhooks 0 k hk hmatch hfirst'
  refine ⟨k, hk, hki, hke, hne, ?_⟩
  unfold webhookRequestHandler
  simp only [hd, Nat.zero_add]

/-- C5 witness: with two registrations for `jira:issue_created`, dispatch of
that event invokes only the first configuration's handler, exactly once. -/
theorem dispatch_duplicate_event_first_wins_witness :
    ∃ k, ∃ hk : k < c5Webhooks.length, k ≤ 0 ∧
      (c5Webhooks.get ⟨k, hk⟩).definition.event = "jira:issue_created" ∧
      (∀ m (hm : m < k),
        (c5Webhooks.get ⟨m, Nat.lt_trans hm hk⟩).definition.event ≠ "jira:issue_created") ∧
      (webhookRequestHandler c5Webhooks (some c5Payload)).2 = [(k, c5Payload)] :=
  dispatch_duplicate_event_first_wins c5Webhooks c5Payload "jira:issue_created"
    0 1 (by decide) (by decide) rfl rfl rfl

/-- C6: a dispatched payload whose event name matches no registered
configuration is answered with the structured 404 "handler not found"
response and no handler is invoked. -/
theorem dispatch_no_match_404 (webhooks : List WebhookConfiguration)
    (payload : IWebhookPayload)
    (h : ∀ wh ∈ webhooks, payload.webhookEvent ≠ some wh.definition.event) :
    webhookRequestHandler webhooks (some payload) =
      (some ⟨404, "Event handler not found"⟩, []) := by
  have h' : ∀ wh ∈ webhooks, eventMatches payload wh = false := by
    intro wh hw
    apply Bool.eq_false_iff.mpr
    intro hc
    exact h wh hw ((eventMatches_iff payload wh).mp hc)
  have hd := dispatchFrom_no_match payload webhooks 0 h'
  unfold webhookRequestHandler
  simp only [hd]

/-- C6 witness: a `jira:issue_deleted` payload against a batch registered
only for `jira:issue_created` is answered 404 with no invocation. -/
theorem dispatch_no_match_404_witness :
    webhookRequestHandler c6Webhooks (some c6Payload) =
      (some ⟨404, "Event handler not found"⟩, []) :=
  dispatch_no_match_404 c6Webhooks c6Payload (by
    intro wh hw
    rcases List.mem_singleton.mp hw with rfl
    decide)

/-- C7: when the first matching configuration's handler rejects (throws),
the exception is absorbed inside the route — dispatch still returns a
response, namely the structured 500 failure body — and the handler was
invoked exactly once; nothing propagates out of the (total) dispatch
function. -/
theorem dispatch_handler_exception_caught
    (webhooks : List WebhookConfiguration) (payload : IWebhookPayload)
    (k : Nat) (hk : k < webhooks.length) (err : String)
    (hev : payload.webhookEvent = some (webhooks.get ⟨k, hk⟩).definition.event)
    (hfirst : ∀ m (hm : m < k),
      payload.webhookEvent ≠ some (webhooks.get ⟨m, Nat.lt_trans hm hk⟩).definition.event)
    (herr : (webhooks.get ⟨k, hk⟩).handler payload = Except.error err) :
    webhookRequestHandler webhooks (some payload) =
      (some ⟨500, "Exception thrown during handling of webhook event"⟩, [(k, payload)]) := by
  have hmatch : eventMatches payload (webhooks.get ⟨k, hk⟩) = true :=
    (eventMatches_iff payload _).mpr hev
  have hfirst' : ∀ m (hm : m < k),
      eventMatches payload (webhooks.get ⟨m, Nat.lt_trans hm hk⟩) = false := by
    intro m hm
    apply Bool.eq_false_iff.mpr
    intro hcon
    exact hfirst m hm ((eventMatches_iff payload _).mp hcon)
  have hd := dispatchFrom_first_match payload webhooks 0 k hk hmatch hfirst'
  unfold webhookRequestHandler
  simp only [hd, herr, handlerResponse, Nat.zero_add]

/-- C7 witness: a throwing handler for `jira:issue_created` yields the
structured 500 response after exactly one invocation. -/
theorem dispatch_handler_exception_caught_witness :
    webhookRequestHandler c7Webhooks (some c7Payload) =
      (some ⟨500, "Exception thrown during handling of webhook event"⟩, [(0, c7Payload)]) :=
  dispatch_handler_exception_caught c7Webhooks c7Payload 0
    (by decide) "boom" rfl (fun m hm => absurd hm (Nat.not_lt_zero m)) rfl
